import Mathlib

/-!
Verification of the stellar-migration sampling subsystem of the
galactic-dtd repository against its natural-language specification.

The embedding covers:
* `src/migration/src/simulations/migration.py` — the `diskmigration`
  zone-assignment callback (a `hydrodiskstars` subclass that writes an
  auxiliary analog-data file) and the `gaussian_migration` callback sketch;
* `src/src/scripts/replace_zfinal.py` — the post-process pass that replaces
  the `zfinal` column of each analog-data file with freshly sampled vertical
  heights (`sech_scale`, `inv_sech_cdf`, `main`).

Modelling conventions:
* Python floats are modelled as `ℚ` where only field plumbing and
  comparisons matter (times, radii, file records), and as `ℝ` where the code
  computes with `exp`, `log` and fractional powers.
* Fallible Python code is modelled with `Option`/`Except`/error components:
  a raised exception is an error value, never a default.
* The external VICE library (the `hydrodiskstars` superclass, the
  `sample_gaussian` random source, pandas I/O) is out of scope per the spec;
  its outputs (the analog index chosen at formation, the superclass's zone
  answer, the stream of Gaussian draws, the stream of uniform draws) are
  explicit parameters of the embedded functions.
-/

/-! ## Python value and error model -/

/-- A Python value as far as the configuration type checks care:
`isinstance(x, str)` and `isinstance(x, bool)` discriminate on these
constructors. -/
inductive PyVal where
  | str (s : String)
  | int (n : ℤ)
  | float (q : ℚ)
  | bool (b : Bool)
  | pynone
deriving DecidableEq

/-- The Python exceptions the embedded code can raise. -/
inductive PyError where
  | typeError
  | assertionError
deriving DecidableEq

/-! ## diskmigration (migration.py lines 5-93)

The class subclasses `vice.toolkit.hydrodisk.hydrodiskstars`. The
superclass owns the analog star-particle data and the zone interpolation;
the subclass state consists of the output file and the write flag. The
output file is modelled as the list of strings passed to `file.write`, in
order. -/

/-- The header string written once when the stream is opened
(migration.py line 41): `"# zone_origin\ttime_origin\tanalog_id\tzfinal\n"`. -/
def headerLine : String := "# zone_origin\ttime_origin\tanalog_id\tzfinal\n"

/-- The `diskmigration`-level mutable state: the contents written to the
output file so far and the write-enable flag. (The superclass state is
external.) -/
structure diskmigration where
  file : List String
  write : Bool
deriving DecidableEq

/-- The superclass's analog star-particle dataset: `analog_data["id"]` and
`analog_data["zfinal"]`, indexed by a (valid, superclass-guaranteed)
non-negative analog index. -/
structure AnalogData where
  id : ℕ → ℤ
  zfinal : ℕ → ℚ

/-- `diskmigration.__init__` (migration.py lines 36-44), restricted to the
subclass's own work: if the filename is a string, open the file and write
the header line; otherwise raise `TypeError` (and the output file is never
opened — the error carries no state). The superclass constructor, the
decomposition filter and `self.write = False` are the remaining lines;
the flag ends up `False`. -/
def diskmigration_init (filename : PyVal) : Except PyError diskmigration :=
  match filename with
  | PyVal.str _ => Except.ok { file := [headerLine], write := false }
  | _ => Except.error PyError.typeError

/-- Python's `"%d" % n` for an int. -/
def fmtInt (n : ℤ) : String := toString n

/-- Python's `"%.2f" % q`: the value rounded to two decimal places and
rendered with exactly two digits after the point. (The embedding renders
the correctly rounded two-decimal expansion; no claim depends on the tie
behaviour of binary doubles.) -/
def fmtF2 (q : ℚ) : String :=
  let n : ℤ := round (q * 100)
  let sgn := if n < 0 then "-" else ""
  let m := n.natAbs
  sgn ++ toString (m / 100) ++ "." ++
    (if m % 100 < 10 then "0" else "") ++ toString (m % 100)

/-- One data record, formatted `"%d\t%.2f\t%d\t%.2f\n" % (zone, tform,
analog_id, finalz)` (migration.py lines 64-65). -/
def dataLine (zone : ℤ) (tform : ℚ) (analog_id : ℤ) (finalz : ℚ) : String :=
  fmtInt zone ++ "\t" ++ fmtF2 tform ++ "\t" ++
    fmtInt analog_id ++ "\t" ++ fmtF2 finalz ++ "\n"

/-- `diskmigration.__call__` (migration.py lines 53-69).

On a formation call (`tform == time`) the superclass call re-samples the
analog star particle; the index it selects is the parameter
`analog_index`.  If the write flag is set, one record is appended: the
sentinel index `-1` yields `analog_id = -1, finalz = 0`, otherwise the
linked analog's `id` and `zfinal` fields are looked up.  The call returns
the input `zone`.  On a non-formation call the result of
`super().__call__` — the parameter `superZone` — is returned and nothing
else happens. -/
def diskmigration_call (st : diskmigration) (data : AnalogData)
    (analog_index : ℤ) (zone : ℤ) (tform time : ℚ) (superZone : ℤ) :
    diskmigration × ℤ :=
  if tform = time then
    if st.write then
      if analog_index = -1 then
        ({ st with file := st.file ++ [dataLine zone tform (-1) 0] }, zone)
      else
        ({ st with file := st.file ++
            [dataLine zone tform (data.id analog_index.toNat)
              (data.zfinal analog_index.toNat)] }, zone)
    else
      (st, zone)
  else
    (st, superZone)

/-- The `write` property setter (migration.py lines 88-93): store the value
if it is a bool, otherwise raise `TypeError`; the exception propagates
before any assignment, so the stored flag is unchanged in the error case. -/
def write_setter (st : diskmigration) (value : PyVal) :
    diskmigration × Option PyError :=
  match value with
  | PyVal.bool b => ({ st with write := b }, Option.none)
  | _ => (st, some PyError.typeError)

/-! ## gaussian_migration (migration.py lines 96-133)

The `__call__` body is a visibly unfinished sketch: it references the
undefined names `sample_gaussian`, `rform` and `some_interpolator`.  The
embedding keeps its control flow exactly: the Gaussian draws that
`sample_gaussian` would produce are an explicit stream (`draws`), consumed
one value per loop iteration, and `some_interpolator` is an explicit
function parameter.  The outer `Option` models a call that never returns
normally (an exhausted draw stream / a raised exception); the inner
`Option ℚ` is the Python return value, `Option.none` standing for `None`. -/

/-- `gaussian_migration` state: the configured zone width and the `self.dR`
attribute, which does not exist before the first formation call. -/
structure gaussian_migration where
  zone_width : ℚ
  dR : Option ℚ
deriving DecidableEq

/-- The `while True:` rejection loop of the formation branch (migration.py
lines 104-108): draw `dR`, form `Rfinal = Rform + dR`, break when
`Rfinal > 0`, else loop and draw afresh.  Returns the accepted draw, or
`Option.none` when the (finite) stream is exhausted. -/
def rejectionLoop (Rform : ℚ) : List ℚ → Option ℚ
  | [] => Option.none
  | d :: ds => if 0 < Rform + d then some d else rejectionLoop Rform ds

/-- `gaussian_migration.__call__` (migration.py lines 100-111).
`Rform = zone_width * (zone + 0.5)`.  On `tform == time` the rejection
loop runs and the accepted draw is stored in `self.dR`; the branch has no
`return` statement, so the call returns Python `None`.  Otherwise the call
returns `some_interpolator(Rform, Rform + self.dR)` (an `AttributeError`
— outer `Option.none` — if no formation call has stored `dR` yet). -/
def gaussian_call (st : gaussian_migration) (zone : ℤ) (tform time : ℚ)
    (draws : List ℚ) (interp : ℚ → ℚ → ℚ) :
    Option (gaussian_migration × Option ℚ) :=
  if tform = time then
    match rejectionLoop (st.zone_width * ((zone : ℚ) + 1/2)) draws with
    | some d => some ({ st with dR := some d }, Option.none)
    | Option.none => Option.none
  else
    match st.dR with
    | some d =>
      some (st, some (interp (st.zone_width * ((zone : ℚ) + 1/2))
        (st.zone_width * ((zone : ℚ) + 1/2) + d)))
    | Option.none => Option.none

/-- `gaussian_migration.migr_scale` (migration.py line 133):
`1.35 * (age ** 0.33) * (rform / 8) ** 0.61`, the scale of the Gaussian
radial-migration distribution. -/
noncomputable def migr_scale (age rform : ℝ) : ℝ :=
  1.35 * age ^ (0.33 : ℝ) * (rform / 8) ^ (0.61 : ℝ)

/-! ## replace_zfinal.py (the post-process pass) -/

/-- `sech_scale` (replace_zfinal.py line 39):
`0.25 * np.exp((age - 5)/7.0) * np.exp((rfinal - 8)/6.0)`. -/
noncomputable def sech_scale (age rfinal : ℝ) : ℝ :=
  0.25 * Real.exp ((age - 5) / 7.0) * Real.exp ((rfinal - 8) / 6.0)

/-- `inv_sech_cdf` (replace_zfinal.py line 48): `-scale * m.log(1/cdf - 1)`.
There is no guard on `cdf`: at `cdf == 0` the division `1/cdf` raises
`ZeroDivisionError`, and whenever `1/cdf - 1 <= 0` (in particular at
`cdf == 1`) `m.log` raises a `ValueError` domain error; both exceptional
paths are `Option.none`. -/
noncomputable def inv_sech_cdf (cdf scale : ℝ) : Option ℝ :=
  if cdf = 0 then Option.none
  else if 1 / cdf - 1 ≤ 0 then Option.none
  else some (-scale * Real.log (1 / cdf - 1))

/-- One row of the star-particle DataFrame as the sampling loop reads it
(replace_zfinal.py line 30): the `age` and `galr_final` columns. -/
structure StarRow where
  age : ℝ
  galr_final : ℝ

/-- One row of the analog-data file; only the `zfinal` column is written by
the pass, the rest rides along unchanged. -/
structure AnalogRow where
  zone_origin : ℤ
  time_origin : ℚ
  analog_id : ℤ
  zfinal : ℝ

/-- The sampling loop (replace_zfinal.py lines 29-32): for each star row,
`z = inv_sech_cdf(random.random(), sech_scale(age, galr_final))`; the
uniform draws are the explicit stream `us`.  Any raised exception (or an
exhausted stream) aborts the whole loop: `Option.none`. -/
noncomputable def sampleHeights : List StarRow → List ℝ → Option (List ℝ)
  | [], _ => some []
  | s :: ss, u :: us =>
    match inv_sech_cdf u (sech_scale s.age s.galr_final),
        sampleHeights ss us with
    | some z, some zs => some (z :: zs)
    | _, _ => Option.none
  | _ :: _, [] => Option.none

/-- `analogdata['zfinal'] = np.array(samples)` (replace_zfinal.py
line 33): replace the `zfinal` column, all other columns unchanged. -/
def replaceColumn (rows : List AnalogRow) (zs : List ℝ) : List AnalogRow :=
  List.zipWith (fun r z => { r with zfinal := z }) rows zs

/-- The body of `main` for one analog-data file (replace_zfinal.py
lines 22-35): first `assert(analogdata.shape[0] == stars.shape[0])` — an
`AssertionError` (= `Option.none`) on a row-count mismatch, raised before
any sampling or replacement — then the sampling loop, then the column
replacement whose result is written back with `to_csv`. -/
noncomputable def processFile (analogdata : List AnalogRow)
    (stars : List StarRow) (us : List ℝ) : Option (List AnalogRow) :=
  if analogdata.length = stars.length then
    (sampleHeights stars us).map (replaceColumn analogdata)
  else Option.none

/-- The on-disk contents of the analog-data file after `main` processes it:
`to_csv` runs only when the body completes, so an aborted run leaves the
file as it was. -/
noncomputable def fileAfterProcess (analogdata : List AnalogRow)
    (stars : List StarRow) (us : List ℝ) : List AnalogRow :=
  (processFile analogdata stars us).getD analogdata

/-! ## Theorems -/

/-- Shared helper: when the rejection loop accepts a draw, that draw gives
`Rform + d > 0`, it is literally one of the stream's elements (no clamping
or other modification), and every draw before it was rejected because it
would have given a non-positive final radius. -/
theorem rejectionLoop_spec : ∀ (draws : List ℚ) (Rform d : ℚ),
    rejectionLoop Rform draws = some d →
    0 < Rform + d ∧ ∃ i, ∃ hi : i < draws.length, draws.get ⟨i, hi⟩ = d ∧
      ∀ j (hj : j < i), Rform + draws.get ⟨j, Nat.lt_trans hj hi⟩ ≤ 0
  | [], _, _, h => by simp [rejectionLoop] at h
  | a :: ds, Rform, d, h => by
    by_cases hpos : 0 < Rform + a
    · rw [rejectionLoop, if_pos hpos, Option.some.injEq] at h
      subst h
      refine ⟨hpos, 0, Nat.succ_pos _, rfl, ?_⟩
      intro j hj
      exact absurd hj (Nat.not_lt_zero j)
    · rw [rejectionLoop, if_neg hpos] at h
      obtain ⟨h1, i, hi, hget, hrej⟩ := rejectionLoop_spec ds Rform d h
      refine ⟨h1, i + 1, Nat.succ_lt_succ hi, hget, ?_⟩
      intro j hj
      cases j with
      | zero => simpa using le_of_not_lt hpos
      | succ j' => exact hrej j' (Nat.lt_of_succ_lt_succ hj)

/-- C1: the claim says every formation call (`tform == time`) of either
callback returns the input zone.  `diskmigration.__call__` does (first
conjunct), but the formation branch of `gaussian_migration.__call__` has no
`return` statement: evaluated at the failing input (zone 0, `tform = time
= 0`, zone width 0.1, first draw 1 accepted), the call stores the draw in
`self.dR` and returns Python `None`, not the zone index 0. -/
theorem C1_formation_return :
    (∀ st data ai zone tform superZone,
      (diskmigration_call st data ai zone tform tform superZone).2 = zone) ∧
    gaussian_call ⟨1/10, Option.none⟩ 0 0 0 [1] (fun _ r => r) =
      some (⟨1/10, some 1⟩, Option.none) := by
  constructor
  · intro st data ai zone tform superZone
    by_cases hw : st.write <;> by_cases ha : ai = (-1 : ℤ) <;>
      simp [diskmigration_call, hw, ha]
  · rw [gaussian_call, if_pos rfl]
    rw [show rejectionLoop ((1/10 : ℚ) * (((0 : ℤ) : ℚ) + 1/2)) [1] =
        some 1 by rw [rejectionLoop, if_pos (by norm_num)]]

/-- C2: whenever a formation call of `gaussian_migration.__call__`
completes, the stored draw `dR` satisfies `Rform + dR > 0`, and it is the
first element of the draw stream whose sum with `Rform` is positive —
every earlier draw was rejected and a fresh one drawn, and the accepted
value is an unmodified draw (a rejection loop, not a clamp). -/
theorem C2_rejection_resampling (st : gaussian_migration) (zone : ℤ)
    (tform : ℚ) (draws : List ℚ) (interp : ℚ → ℚ → ℚ)
    (st' : gaussian_migration) (ret : Option ℚ)
    (h : gaussian_call st zone tform tform draws interp = some (st', ret)) :
    ∃ d, st'.dR = some d ∧
      0 < st.zone_width * ((zone : ℚ) + 1/2) + d ∧
      ∃ i, ∃ hi : i < draws.length, draws.get ⟨i, hi⟩ = d ∧
        ∀ j (hj : j < i),
          st.zone_width * ((zone : ℚ) + 1/2) +
            draws.get ⟨j, Nat.lt_trans hj hi⟩ ≤ 0 := by
  rw [gaussian_call, if_pos rfl] at h
  cases hloop : rejectionLoop (st.zone_width * ((zone : ℚ) + 1/2)) draws with
  | none => rw [hloop] at h; exact absurd h (by simp)
  | some d =>
    rw [hloop] at h
    have h' := Option.some.inj h
    injection h' with hst hret
    subst hst
    obtain ⟨hpos, i, hi, hget, hrej⟩ :=
      rejectionLoop_spec draws (st.zone_width * ((zone : ℚ) + 1/2)) d hloop
    exact ⟨d, rfl, hpos, i, hi, hget, hrej⟩

/-- C2 witness: a concrete formation call (zone width 0.1, zone 0, first
draw -1 rejected, second draw 3 accepted). -/
theorem C2_rejection_resampling_witness :
    gaussian_call ⟨1/10, Option.none⟩ 0 2 2 [-1, 3] (fun _ r => r) =
      some (⟨1/10, some 3⟩, Option.none) ∧
    ∃ d, (⟨1/10, some 3⟩ : gaussian_migration).dR = some d ∧
      0 < (1/10 : ℚ) * (((0 : ℤ) : ℚ) + 1/2) + d ∧
      ∃ i, ∃ hi : i < ([-1, 3] : List ℚ).length,
        ([-1, 3] : List ℚ).get ⟨i, hi⟩ = d ∧
        ∀ j (hj : j < i),
          (1/10 : ℚ) * (((0 : ℤ) : ℚ) + 1/2) +
            ([-1, 3] : List ℚ).get ⟨j, Nat.lt_trans hj hi⟩ ≤ 0 := by
  have hcall : gaussian_call ⟨1/10, Option.none⟩ 0 2 2 [-1, 3] (fun _ r => r) =
      some (⟨1/10, some 3⟩, Option.none) := by
    rw [gaussian_call, if_pos rfl]
    rw [show rejectionLoop ((1/10 : ℚ) * (((0 : ℤ) : ℚ) + 1/2)) [-1, 3] =
        some 3 by
      rw [rejectionLoop, if_neg (by norm_num), rejectionLoop,
        if_pos (by norm_num)]]
  exact ⟨hcall,
    C2_rejection_resampling ⟨1/10, Option.none⟩ 0 2 [-1, 3] (fun _ r => r)
      ⟨1/10, some 3⟩ Option.none hcall⟩

/-- C3: for every `age`, `rfinal` and `u` strictly inside `(0, 1)`, the
post-process sampling expression `inv_sech_cdf(u, sech_scale(age, rfinal))`
equals `-h_z * ln(1/u - 1)` with
`h_z = 0.25 * exp((age - 5)/7.0) * exp((rfinal - 8)/6.0)`. -/
theorem C3_vertical_sample_formula (age rfinal u : ℝ)
    (h0 : 0 < u) (h1 : u < 1) :
    inv_sech_cdf u (sech_scale age rfinal) =
      some (-(0.25 * Real.exp ((age - 5) / 7.0) *
        Real.exp ((rfinal - 8) / 6.0)) * Real.log (1 / u - 1)) := by
  have hpos : 0 < 1 / u - 1 := sub_pos.mpr (one_lt_one_div h0 h1)
  rw [inv_sech_cdf, if_neg (ne_of_gt h0), if_neg (not_le.mpr hpos)]
  rfl

/-- C3 witness: the formula at `age = 5`, `rfinal = 8`, `u = 1/2`. -/
theorem C3_vertical_sample_formula_witness :
    (0 : ℝ) < 1/2 ∧ (1/2 : ℝ) < 1 ∧
    inv_sech_cdf (1/2) (sech_scale 5 8) =
      some (-(0.25 * Real.exp (((5 : ℝ) - 5) / 7.0) *
        Real.exp (((8 : ℝ) - 8) / 6.0)) * Real.log (1 / (1/2) - 1)) :=
  ⟨by norm_num, by norm_num,
    C3_vertical_sample_formula 5 8 (1/2) (by norm_num) (by norm_num)⟩

/-- C5 counterexample: at `u = 0` the code divides by zero — `1/cdf`
raises `ZeroDivisionError` (`Option.none`); no guard rejects or clamps `u`
before `ln(1/u - 1)` is evaluated, contrary to the claim. -/
theorem C5_division_by_zero_at_zero : inv_sech_cdf 0 1 = Option.none := by
  rw [inv_sech_cdf, if_pos rfl]

/-- C5 (amended): `inv_sech_cdf` applies no guard.  For `u` strictly inside
`(0, 1)` the result is the well-defined finite real `-scale * ln(1/u - 1)`;
at the endpoint `u = 0` the division `1/u` raises `ZeroDivisionError` and at
`u = 1` the logarithm raises a `ValueError` domain error (both modelled as
`Option.none`).  The sampling path draws `u` from `[0, 1)`, so `u = 1` is
unreachable in practice but `u = 0` is possible and unguarded. -/
theorem C5_no_guard_behaviour (u scale : ℝ) (h0 : 0 < u) (h1 : u < 1) :
    inv_sech_cdf u scale = some (-scale * Real.log (1 / u - 1)) ∧
    inv_sech_cdf 0 scale = Option.none ∧
    inv_sech_cdf 1 scale = Option.none := by
  refine ⟨?_, ?_, ?_⟩
  · have hpos : 0 < 1 / u - 1 := sub_pos.mpr (one_lt_one_div h0 h1)
    rw [inv_sech_cdf, if_neg (ne_of_gt h0), if_neg (not_le.mpr hpos)]
  · rw [inv_sech_cdf, if_pos rfl]
  · rw [inv_sech_cdf, if_neg one_ne_zero, if_pos (by norm_num)]

/-- C5 witness: the amended statement at `u = 1/2`, `scale = 1`. -/
theorem C5_no_guard_behaviour_witness :
    (0 : ℝ) < 1/2 ∧ (1/2 : ℝ) < 1 ∧
    (inv_sech_cdf (1/2) 1 = some (-1 * Real.log (1 / (1/2) - 1)) ∧
     inv_sech_cdf 0 1 = Option.none ∧
     inv_sech_cdf 1 1 = Option.none) :=
  ⟨by norm_num, by norm_num,
    C5_no_guard_behaviour (1/2) 1 (by norm_num) (by norm_num)⟩

/-- C6: for every `age ≥ 0` and `rform > 0`, the code's
`1.35 * (age ** 0.33) * (rform / 8) ** 0.61` equals the spec's
`1.35 * (rform / 8)^0.61 * age^0.33` (the factor order commutes). -/
theorem C6_migr_scale_formula (age rform : ℝ)
    (h1 : 0 ≤ age) (h2 : 0 < rform) :
    migr_scale age rform =
      1.35 * (rform / 8) ^ (0.61 : ℝ) * age ^ (0.33 : ℝ) := by
  rw [migr_scale]; ring

/-- C6 witness: the scale formula at `age = 1`, `rform = 8`. -/
theorem C6_migr_scale_formula_witness :
    (0 : ℝ) ≤ 1 ∧ (0 : ℝ) < 8 ∧
    migr_scale 1 8 =
      1.35 * ((8 : ℝ) / 8) ^ (0.61 : ℝ) * (1 : ℝ) ^ (0.33 : ℝ) :=
  ⟨by norm_num, by norm_num, C6_migr_scale_formula 1 8 (by norm_num) (by norm_num)⟩

/-- C4 counterexample: the header line actually written at stream open is
`"# zone_origin\ttime_origin\tanalog_id\tzfinal\n"` — it carries a leading
`"# "` comment mark, so it is not exactly the claimed
`"zone_origin\ttime_origin\tanalog_id\tzfinal\n"`. -/
theorem C4_header_not_as_claimed :
    headerLine ≠ "zone_origin\ttime_origin\tanalog_id\tzfinal\n" := by
  decide

/-- C4 (amended): the output stream begins with the header line
`"# zone_origin\ttime_origin\tanalog_id\tzfinal\n"` (leading `"# "`),
written exactly once at stream open, and every formation call with write
enabled appends exactly one data line formatted
`"%d\t%.2f\t%d\t%.2f\n" % (zone_origin, time_origin, analog_id, zfinal)`
(`dataLine` is that format). -/
theorem C4_stream_format :
    (∀ s, diskmigration_init (PyVal.str s) =
      Except.ok { file := [headerLine], write := false }) ∧
    (∀ st data ai zone tform superZone, st.write = true →
      (diskmigration_call st data ai zone tform tform superZone).1.file =
        st.file ++ [dataLine zone tform
          (if ai = -1 then -1 else data.id ai.toNat)
          (if ai = -1 then 0 else data.zfinal ai.toNat)]) := by
  refine ⟨fun s => rfl, ?_⟩
  intro st data ai zone tform superZone hw
  by_cases ha : ai = (-1 : ℤ) <;> simp [diskmigration_call, hw, ha]

/-- C4 witness: a concrete open followed by one enabled formation call. -/
theorem C4_stream_format_witness :
    (⟨[headerLine], true⟩ : diskmigration).write = true ∧
    diskmigration_init (PyVal.str "stars.out") =
      Except.ok { file := [headerLine], write := false } ∧
    (diskmigration_call ⟨[headerLine], true⟩ ⟨fun _ => 7, fun _ => 1/2⟩
        (-1) 3 (1/4) (1/4) 9).1.file =
      [headerLine] ++ [dataLine 3 (1/4)
        (if (-1 : ℤ) = -1 then -1 else 7)
        (if (-1 : ℤ) = -1 then 0 else 1/2)] :=
  ⟨rfl, C4_stream_format.1 "stars.out",
    C4_stream_format.2 ⟨[headerLine], true⟩ ⟨fun _ => 7, fun _ => 1/2⟩
      (-1) 3 (1/4) 9 rfl⟩

/-- C7: configuration type errors fail fast and never coerce — a
non-string filename raises `TypeError` and no output file state is created
(the error carries no state, so nothing was opened or written); a string
filename never raises; a non-boolean write-enable assignment raises
`TypeError` and the stored flag is unchanged (the state component returned
alongside the error is the input state); a boolean assignment never
raises and stores the value. -/
theorem C7_config_type_errors :
    (∀ v, (∀ s, v ≠ PyVal.str s) →
      diskmigration_init v = Except.error PyError.typeError) ∧
    (∀ s, diskmigration_init (PyVal.str s) =
      Except.ok { file := [headerLine], write := false }) ∧
    (∀ st v, (∀ b, v ≠ PyVal.bool b) →
      write_setter st v = (st, some PyError.typeError)) ∧
    (∀ st b, write_setter st (PyVal.bool b) =
      ({ st with write := b }, Option.none)) := by
  refine ⟨?_, fun s => rfl, ?_, fun st b => rfl⟩
  · intro v hv
    cases v with
    | str s => exact absurd rfl (hv s)
    | int n => rfl
    | float q => rfl
    | bool b => rfl
    | pynone => rfl
  · intro st v hv
    cases v with
    | str s => rfl
    | int n => rfl
    | float q => rfl
    | bool b => exact absurd rfl (hv b)
    | pynone => rfl

/-- C7 witness: an int filename, a string filename, a float write-enable
assignment and a boolean write-enable assignment at concrete values. -/
theorem C7_config_type_errors_witness :
    diskmigration_init (PyVal.int 3) = Except.error PyError.typeError ∧
    diskmigration_init (PyVal.str "stars.out") =
      Except.ok { file := [headerLine], write := false } ∧
    write_setter ⟨[headerLine], false⟩ (PyVal.float (1/2)) =
      (⟨[headerLine], false⟩, some PyError.typeError) ∧
    write_setter ⟨[headerLine], false⟩ (PyVal.bool true) =
      (⟨[headerLine], true⟩, Option.none) :=
  ⟨C7_config_type_errors.1 (PyVal.int 3) (fun s h => PyVal.noConfusion h),
    C7_config_type_errors.2.1 "stars.out",
    C7_config_type_errors.2.2.1 ⟨[headerLine], false⟩ (PyVal.float (1/2))
      (fun b h => PyVal.noConfusion h),
    C7_config_type_errors.2.2.2 ⟨[headerLine], false⟩ true⟩

/-- C8: on an enabled formation call, a sentinel analog index `-1` yields
a record with `analog_id = -1` and `zfinal = 0`, and any other index
yields a record with the linked analog's `id` and `zfinal` fields; in both
cases the call completes normally returning the zone (`diskmigration_call`
is total — the missing-analog case is never an error). -/
theorem C8_missing_analog_default (st : diskmigration) (data : AnalogData)
    (zone : ℤ) (tform : ℚ) (superZone : ℤ) (hw : st.write = true) :
    ((diskmigration_call st data (-1) zone tform tform superZone).1.file =
        st.file ++ [dataLine zone tform (-1) 0] ∧
      (diskmigration_call st data (-1) zone tform tform superZone).2 =
        zone) ∧
    ∀ ai : ℤ, ai ≠ -1 →
      (diskmigration_call st data ai zone tform tform superZone).1.file =
        st.file ++ [dataLine zone tform (data.id ai.toNat)
          (data.zfinal ai.toNat)] := by
  refine ⟨⟨?_, ?_⟩, ?_⟩
  · simp [diskmigration_call, hw]
  · simp [diskmigration_call, hw]
  · intro ai ha
    simp [diskmigration_call, hw, ha]

/-- C8 witness: the sentinel and a linked analog index at concrete
values. -/
theorem C8_missing_analog_default_witness :
    (⟨[headerLine], true⟩ : diskmigration).write = true ∧
    (5 : ℤ) ≠ -1 ∧
    (diskmigration_call ⟨[headerLine], true⟩ ⟨fun _ => 7, fun _ => 1/2⟩
        (-1) 2 3 3 9).1.file = [headerLine] ++ [dataLine 2 3 (-1) 0] ∧
    (diskmigration_call ⟨[headerLine], true⟩ ⟨fun _ => 7, fun _ => 1/2⟩
        5 2 3 3 9).1.file = [headerLine] ++ [dataLine 2 3 7 (1/2)] :=
  ⟨rfl, by norm_num,
    (C8_missing_analog_default ⟨[headerLine], true⟩ ⟨fun _ => 7, fun _ => 1/2⟩
      2 3 9 rfl).1.1,
    (C8_missing_analog_default ⟨[headerLine], true⟩ ⟨fun _ => 7, fun _ => 1/2⟩
      2 3 9 rfl).2 5 (by norm_num)⟩

/-- C9: the post-process pass aborts with an `AssertionError` whenever the
analog-data row count differs from the star-particle row count, the abort
happens before any sampling or replacement, and the file contents after the
aborted run are the original rows unchanged. -/
theorem C9_rowcount_mismatch_abort (analogdata : List AnalogRow)
    (stars : List StarRow) (us : List ℝ)
    (h : analogdata.length ≠ stars.length) :
    processFile analogdata stars us = Option.none ∧
    fileAfterProcess analogdata stars us = analogdata := by
  have hp : processFile analogdata stars us = Option.none := by
    rw [processFile, if_neg h]
  exact ⟨hp, by rw [fileAfterProcess, hp, Option.getD_none]⟩

/-- C9 witness: one analog row against zero star rows. -/
theorem C9_rowcount_mismatch_abort_witness :
    ([⟨0, 0, 0, 0⟩] : List AnalogRow).length ≠
      ([] : List StarRow).length ∧
    processFile [⟨0, 0, 0, 0⟩] [] [] = Option.none ∧
    fileAfterProcess [⟨0, 0, 0, 0⟩] [] [] = [⟨0, 0, 0, 0⟩] :=
  ⟨by simp,
    (C9_rowcount_mismatch_abort [⟨0, 0, 0, 0⟩] [] [] (by simp)).1,
    (C9_rowcount_mismatch_abort [⟨0, 0, 0, 0⟩] [] [] (by simp)).2⟩

/-- C10: a non-formation call (`tform ≠ time`) leaves the whole
`diskmigration` state — file contents and write flag — unchanged and
returns exactly the superclass's answer, regardless of the write flag. -/
theorem C10_nonformation_frame (st : diskmigration) (data : AnalogData)
    (ai zone : ℤ) (tform time : ℚ) (superZone : ℤ) (h : tform ≠ time) :
    diskmigration_call st data ai zone tform time superZone =
      (st, superZone) := by
  rw [diskmigration_call, if_neg h]

/-- C10 witness: a concrete non-formation call with the write flag set. -/
theorem C10_nonformation_frame_witness :
    (0 : ℚ) ≠ 1 ∧
    diskmigration_call ⟨[headerLine], true⟩ ⟨fun _ => 0, fun _ => 0⟩
      (-1) 4 0 1 6 = (⟨[headerLine], true⟩, 6) :=
  ⟨by norm_num,
    C10_nonformation_frame ⟨[headerLine], true⟩ ⟨fun _ => 0, fun _ => 0⟩
      (-1) 4 0 1 6 (by norm_num)⟩
